import Mathlib

/-!
Formal model of the ECS test agent (`ecs-test-agent/main.rs`) from
bottlerocket-test-system: the outcome reducer `test_results`, the readiness
waiter `wait_for_registered_containers`, the workload provisioner
`create_or_find_task_definition`, and the completion waiter built from
`wait_for_test_running` together with the deadline fallback in
`EcsTestRunner::run`.

Machine integers are modelled explicitly: the `usize -> i32` and wrapping
`i32` arithmetic go through `wrap_i32`, and the `i32 -> u64` cast through
`i32_as_u64`.  The AWS client is modelled as a deterministic oracle; the
polling loops take their describe responses as a function of the poll round,
and a fuel bound stands for the number of poll rounds that the 30 second
deadline admits before `tokio::time::timeout` fires.
-/

set_option maxRecDepth 4000

namespace EcsTestAgent

/-- Variants of `aws_sdk_ecs::types::TaskStopCode` that the agent can observe. -/
inductive TaskStopCode where
  | TaskFailedToStart
  | EssentialContainerExited
  | UserInitiated
  | ServiceSchedulerInitiated
  | SpotInterruption
  | TerminationNotice
deriving DecidableEq

/-- Model of `aws_sdk_ecs::types::Container`: only the exit code is read by the agent. -/
structure Container where
  exit_code : Option Int
deriving DecidableEq

/-- Model of an `aws_sdk_ecs::types::Task` snapshot: the three fields the reducer reads. -/
structure Task where
  last_status : Option String
  stop_code : Option TaskStopCode
  containers : List Container
deriving DecidableEq

/-- Model of `testsys_model::Outcome`. -/
inductive Outcome where
  | Pass
  | Fail
  | Timeout
  | Unknown
deriving DecidableEq

/-- Model of `testsys_model::TestResults`; the count fields are `u64` values. -/
structure TestResults where
  outcome : Outcome
  num_passed : Nat
  num_failed : Nat
  num_skipped : Nat
  other_info : Option String
deriving DecidableEq

/-- Two's-complement wrap into `i32`, as Rust's `as i32` on an arbitrary integer. -/
def wrap_i32 (x : Int) : Int :=
  (x + 2147483648) % 4294967296 - 2147483648

/-- Rust's `as u64` applied to an `i32` value: sign-extend, i.e. reduce modulo `2^64`. -/
def i32_as_u64 (x : Int) : Nat :=
  (x % 18446744073709551616).toNat

/-- The filter chain of `test_results` (main.rs:152-163): number of described tasks
whose last status is "STOPPED", whose stop code is `EssentialContainerExited`, and
none of whose containers has an exit code different from zero. -/
def running_count (tasks : List Task) : Nat :=
  (((tasks.filter (fun task => task.last_status == some "STOPPED")).filter
        (fun task => task.stop_code == some TaskStopCode.EssentialContainerExited)).filter
      (fun task =>
        (task.containers.filter (fun container => container.exit_code != some 0)).length == 0)).length

/-- The per-snapshot predicate the filter chain of `test_results` computes. -/
def taskPassed (task : Task) : Bool :=
  task.last_status == some "STOPPED" &&
  (task.stop_code == some TaskStopCode.EssentialContainerExited &&
    ((task.containers.filter (fun container => container.exit_code != some 0)).length == 0))

/-- The pure reducer of `test_results` (main.rs:152-175), applied to the snapshot list
that `describe_tasks` returned.  `task_count` is the configured replica count (an
`i32`), `running_count ... as i32` is `wrap_i32` of the filter-chain length, and
`num_failed` is the `i32` difference cast to `u64`. -/
def test_results (task_count : Int) (tasks : List Task) : TestResults :=
  let rc : Int := wrap_i32 (running_count tasks)
  { outcome := if task_count = rc then Outcome.Pass else Outcome.Fail
    num_passed := i32_as_u64 rc
    num_failed := i32_as_u64 (wrap_i32 (task_count - rc))
    num_skipped := 0
    other_info := none }

/-- A snapshot satisfying all three pass conditions. -/
def passingTask : Task :=
  { last_status := some "STOPPED"
    stop_code := some TaskStopCode.EssentialContainerExited
    containers := [{ exit_code := some 0 }] }

/-- A snapshot that is still running (not yet stopped). -/
def runningTask : Task :=
  { last_status := some "RUNNING"
    stop_code := none
    containers := [{ exit_code := none }] }

/-- Model of `aws_sdk_ecs::types::TaskDefinition`: only the revision is read. -/
structure TaskDefinition where
  revision : Int
deriving DecidableEq

/-- Model of `DescribeTaskDefinitionOutput`. -/
structure DescribeTaskDefinitionOutput where
  task_definition : Option TaskDefinition
deriving DecidableEq

/-- Model of `RegisterTaskDefinitionOutput`. -/
structure RegisterTaskDefinitionOutput where
  task_definition : Option TaskDefinition
deriving DecidableEq

/-- Variants of `DescribeTaskDefinitionError`. -/
inductive DescribeTaskDefinitionError where
  | ClientException (message : String)
  | InvalidParameterException (message : String)
  | ServerException (message : String)
deriving DecidableEq

/-- Model of `aws_sdk_ecs::error::SdkError`: either a transport-level failure or a
service-level error of type `E`. -/
inductive EcsSdkError (E : Type) where
  | ConstructionFailure
  | DispatchFailure
  | ResponseError
  | TimeoutError
  | ServiceError (err : E)
deriving DecidableEq

/-- Modelled from the spec: the well-known template family name
`bottlerocket_agents::constants::DEFAULT_TASK_DEFINITION`, whose defining module is
not part of this source snapshot; only its identity matters here. -/
def DEFAULT_TASK_DEFINITION : String := "testsys-bottlerocket-aws-ecs-test"

/-- Variants of `bottlerocket_agents::error::Error` raised by this agent through the
snafu context selectors appearing in the source. -/
inductive Error where
  | ClusterDescribe
  | NoTask
  | InstanceTimeout
  | TaskRunCreation
  | TaskDescribe
  | TaskDefinitionCreation
  | TaskDefinitionMissing
  | TaskDefinitionDescribe (source : EcsSdkError DescribeTaskDefinitionError)
deriving DecidableEq

/-- One ECS API operation, recorded in call traces to reason about which calls a
code path performs. `RunTask` records the task definition reference and count used. -/
inductive ApiCall where
  | DescribeClusters
  | DescribeTaskDef
  | RegisterTaskDef
  | RunTask (task_definition : String) (count : Int)
  | DescribeTasks
deriving DecidableEq

/-- The `exists` helper (main.rs:260-272): false exactly when the describe failed
with a service-level `ClientException`; true on success and on every other error. -/
def existsTaskDefinition
    (result : Except (EcsSdkError DescribeTaskDefinitionError) DescribeTaskDefinitionOutput) :
    Bool :=
  match result with
  | .error (.ServiceError (.ClientException _)) => false
  | _ => true

/-- `latest_task_revision` (main.rs:246-258): describe the default family and format
`family:revision`; a missing task definition in the output is
`TaskDefinitionMissing`, a describe failure is `TaskDefinitionDescribe`. -/
def latest_task_revision
    (describe_response :
      Except (EcsSdkError DescribeTaskDefinitionError) DescribeTaskDefinitionOutput) :
    (Except Error String) × List ApiCall :=
  let result : Except Error String :=
    match describe_response with
    | .error e => .error (.TaskDefinitionDescribe e)
    | .ok out =>
      match out.task_definition with
      | none => .error .TaskDefinitionMissing
      | some td => .ok (DEFAULT_TASK_DEFINITION ++ ":" ++ toString td.revision)
  (result, [ApiCall.DescribeTaskDef])

/-- `create_task_definition` (main.rs:219-243): register the default task definition
and format `family:revision` from the revision assigned at creation. -/
def create_task_definition (register_response : Except Unit RegisterTaskDefinitionOutput) :
    (Except Error String) × List ApiCall :=
  let result : Except Error String :=
    match register_response with
    | .error _ => .error .TaskDefinitionCreation
    | .ok out =>
      match out.task_definition with
      | none => .error .TaskDefinitionMissing
      | some td => .ok (DEFAULT_TASK_DEFINITION ++ ":" ++ toString td.revision)
  (result, [ApiCall.RegisterTaskDef])

/-- `create_or_find_task_definition` (main.rs:202-215): describe the well-known
family; if `exists` judges it present, fetch the latest revision (a second describe
against the same deterministic oracle), otherwise create it. -/
def create_or_find_task_definition
    (describe_response :
      Except (EcsSdkError DescribeTaskDefinitionError) DescribeTaskDefinitionOutput)
    (register_response : Except Unit RegisterTaskDefinitionOutput) :
    (Except Error String) × List ApiCall :=
  if existsTaskDefinition describe_response then
    let r := latest_task_revision describe_response
    (r.1, ApiCall.DescribeTaskDef :: r.2)
  else
    let r := create_task_definition register_response
    (r.1, ApiCall.DescribeTaskDef :: r.2)

/-- The task-name resolution in `EcsTestRunner::run` (main.rs:69-72): a configured
`task_definition_name_and_revision` is used verbatim, otherwise the provisioner runs. -/
def resolve_task_definition (configured : Option String)
    (describe_response :
      Except (EcsSdkError DescribeTaskDefinitionError) DescribeTaskDefinitionOutput)
    (register_response : Except Unit RegisterTaskDefinitionOutput) :
    (Except Error String) × List ApiCall :=
  match configured with
  | some task_definition => (.ok task_definition, [])
  | none => create_or_find_task_definition describe_response register_response

/-- Model of `aws_sdk_ecs::types::Cluster`: only the registered instance count is read. -/
structure Cluster where
  registered_container_instances_count : Int
deriving DecidableEq

/-- The loop body of `wait_for_registered_containers` (main.rs:177-198), with the
describe responses given per poll round and fuel bounding the rounds the 30 second
deadline admits; `none` means the deadline fired while the loop was still polling. -/
def wait_for_registered_containers (dc : Nat → Except Unit (List Cluster)) :
    Nat → Nat → (Option (Except Error Unit)) × List ApiCall
  | _, 0 => (none, [])
  | i, fuel+1 =>
    match dc i with
    | .error _ => (some (.error .ClusterDescribe), [ApiCall.DescribeClusters])
    | .ok clusters =>
      match clusters.head? with
      | none => (some (.error .NoTask), [ApiCall.DescribeClusters])
      | some cluster =>
        if cluster.registered_container_instances_count ≠ 0 then
          (some (.ok ()), [ApiCall.DescribeClusters])
        else
          let r := wait_for_registered_containers dc (i+1) fuel
          (r.1, ApiCall.DescribeClusters :: r.2)

/-- The readiness stage of `EcsTestRunner::run` (main.rs:62-67):
`tokio::time::timeout(30s, wait_for_registered_containers)` with the timeout mapped
to `Error::InstanceTimeout` by the snafu context. -/
def readiness_stage (dc : Nat → Except Unit (List Cluster)) (deadline_polls : Nat) :
    (Except Error Unit) × List ApiCall :=
  let r := wait_for_registered_containers dc 0 deadline_polls
  let result : Except Error Unit :=
    match r.1 with
    | some res => res
    | none => .error .InstanceTimeout
  (result, r.2)

/-- `test_results` as called (main.rs:137-151): the `describe_tasks` call followed by
the pure reduction; a describe failure becomes `Error::TaskDescribe`. -/
def test_results_call (describe_response : Except Unit (List Task)) (task_count : Int) :
    (Except Error TestResults) × List ApiCall :=
  let result : Except Error TestResults :=
    match describe_response with
    | .error _ => .error .TaskDescribe
    | .ok tasks => .ok (test_results task_count tasks)
  (result, [ApiCall.DescribeTasks])

/-- The polling loop `wait_for_test_running` (main.rs:122-135): each round describes
the tasks and reduces; a describe error exits the loop with that error, a Pass
verdict returns, anything else sleeps 2s and iterates.  Fuel bounds the rounds the
30 second deadline admits; `none` means the deadline fired first. -/
def wait_for_test_running (dt : Nat → Except Unit (List Task)) (task_count : Int) :
    Nat → Nat → (Option (Except Error TestResults)) × List ApiCall
  | _, 0 => (none, [])
  | i, fuel+1 =>
    match dt i with
    | .error _ => (some (.error .TaskDescribe), [ApiCall.DescribeTasks])
    | .ok tasks =>
      let results := test_results task_count tasks
      if results.outcome = Outcome.Pass then
        (some (.ok results), [ApiCall.DescribeTasks])
      else
        let w := wait_for_test_running dt task_count (i+1) fuel
        (w.1, ApiCall.DescribeTasks :: w.2)

/-- The completion stage of `EcsTestRunner::run` (main.rs:93-114):
`tokio::time::timeout(30s, wait_for_test_running)`, and on timeout one final
`test_results` call whose outcome is returned as the run's result. -/
def completion_stage (dt : Nat → Except Unit (List Task)) (task_count : Int)
    (deadline_polls : Nat) : (Except Error TestResults) × List ApiCall :=
  let w := wait_for_test_running dt task_count 0 deadline_polls
  match w.1 with
  | some results => (results, w.2)
  | none =>
    let f := test_results_call (dt deadline_polls) task_count
    (f.1, w.2 ++ f.2)

/-- The poll interval of both waiters, `Duration::from_secs(2)`, in seconds. -/
def POLL_INTERVAL_SECS : Nat := 2

/-- The deadline of both `tokio::time::timeout` calls, `Duration::from_secs(30)`, in seconds. -/
def TIMEOUT_SECS : Nat := 30

/-- Model of `EcsTestConfig` (bottlerocket-types agent config): the fields read here. -/
structure EcsTestConfig where
  cluster_name : String
  region : Option String
  assume_role : Option String
  task_count : Int
  task_definition_name_and_revision : Option String

/-- Deterministic oracle for the ECS client: the response each operation returns,
with the polled operations given per poll round. -/
structure EcsEnv where
  describe_clusters : Nat → Except Unit (List Cluster)
  describe_task_definition :
    Except (EcsSdkError DescribeTaskDefinitionError) DescribeTaskDefinitionOutput
  register_task_definition : Except Unit RegisterTaskDefinitionOutput
  run_task : Except Unit (List Task)
  describe_tasks : Nat → Except Unit (List Task)

/-- `EcsTestRunner::run` (main.rs:48-115) after credential resolution: readiness
wait, task-definition resolution, task submission, completion wait.  Each stage's
error aborts the run; the trace records the ECS operations performed in order. -/
def runModel (config : EcsTestConfig) (env : EcsEnv)
    (readiness_polls completion_polls : Nat) :
    (Except Error TestResults) × List ApiCall :=
  let ready := readiness_stage env.describe_clusters readiness_polls
  match ready.1 with
  | .error e => (.error e, ready.2)
  | .ok _ =>
    let resolved := resolve_task_definition config.task_definition_name_and_revision
      env.describe_task_definition env.register_task_definition
    match resolved.1 with
    | .error e => (.error e, ready.2 ++ resolved.2)
    | .ok task_name =>
      match env.run_task with
      | .error _ =>
        (.error .TaskRunCreation,
          ready.2 ++ resolved.2 ++ [ApiCall.RunTask task_name config.task_count])
      | .ok _ =>
        let comp := completion_stage env.describe_tasks config.task_count completion_polls
        (comp.1,
          ready.2 ++ resolved.2 ++ [ApiCall.RunTask task_name config.task_count] ++ comp.2)

/-- A poll round in which the cluster is found but reports zero registered capacity:
the only situation in which the readiness loop takes another iteration. -/
def stillWaiting (dc : Nat → Except Unit (List Cluster)) (j : Nat) : Prop :=
  ∃ cluster clusters, dc j = .ok (cluster :: clusters)
    ∧ cluster.registered_container_instances_count = 0

/-- A cluster with no registered container instances. -/
def clusterZero : Cluster := { registered_container_instances_count := 0 }

/-- A cluster with one registered container instance. -/
def clusterOne : Cluster := { registered_container_instances_count := 1 }

/-- Witness oracle for readiness: round 0 reports zero capacity, later rounds one. -/
def dcWitness : Nat → Except Unit (List Cluster) :=
  fun i => if i = 0 then .ok [clusterZero] else .ok [clusterOne]

/-- Witness oracle whose describes always return an empty cluster list. -/
def dcEmpty : Nat → Except Unit (List Cluster) :=
  fun _ => .ok []

/-- Witness oracle for completion: round 0 still running, later rounds passing. -/
def dtWitness : Nat → Except Unit (List Task) :=
  fun i => if i = 0 then .ok [runningTask] else .ok [passingTask]

/-- Witness environment: readiness succeeds on the second poll, the configured task
definition exists, one submitted task that passes from the second completion poll. -/
def envWitness : EcsEnv :=
  { describe_clusters := dcWitness
    describe_task_definition := .ok { task_definition := some { revision := 7 } }
    register_task_definition := .ok { task_definition := some { revision := 1 } }
    run_task := .ok [runningTask]
    describe_tasks := dtWitness }

/-- Witness environment in which `describe_clusters` never finds the cluster. -/
def envNoCluster : EcsEnv :=
  { envWitness with describe_clusters := dcEmpty }

/-- Witness configuration naming an explicit task definition and revision. -/
def configWitness : EcsTestConfig :=
  { cluster_name := "cluster"
    region := none
    assume_role := none
    task_count := 1
    task_definition_name_and_revision := some "my-task:3" }

theorem running_count_eq_filter (tasks : List Task) :
    running_count tasks = (tasks.filter taskPassed).length := by
  unfold running_count taskPassed
  rw [List.filter_filter, List.filter_filter]
  congr 1
  apply List.filter_congr
  intro task _
  cases task.last_status == some "STOPPED" <;>
    cases task.stop_code == some TaskStopCode.EssentialContainerExited <;>
    cases (task.containers.filter (fun container => container.exit_code != some 0)).length == 0 <;>
    rfl

theorem running_count_le_length (tasks : List Task) :
    running_count tasks ≤ tasks.length := by
  rw [running_count_eq_filter]
  exact List.length_filter_le _ _

theorem running_count_singleton (task : Task) :
    running_count [task] = if taskPassed task then 1 else 0 := by
  rw [running_count_eq_filter]
  by_cases h : taskPassed task <;> simp [h]

theorem wrap_i32_id (x : Int) (h1 : -2147483648 ≤ x) (h2 : x < 2147483648) :
    wrap_i32 x = x := by
  unfold wrap_i32
  omega

theorem i32_as_u64_of_nonneg (x : Int) (h1 : 0 ≤ x) (h2 : x < 18446744073709551616) :
    i32_as_u64 x = x.toNat := by
  unfold i32_as_u64
  omega

theorem i32_as_u64_of_neg (x : Int) (h1 : -18446744073709551616 ≤ x) (h2 : x < 0) :
    i32_as_u64 x = (x + 18446744073709551616).toNat := by
  unfold i32_as_u64
  omega

theorem test_results_num_passed (task_count : Int) (tasks : List Task) :
    (test_results task_count tasks).num_passed
      = i32_as_u64 (wrap_i32 (running_count tasks)) := by
  simp only [test_results]

theorem test_results_num_failed (task_count : Int) (tasks : List Task) :
    (test_results task_count tasks).num_failed
      = i32_as_u64 (wrap_i32 (task_count - wrap_i32 (running_count tasks))) := by
  simp only [test_results]

theorem test_results_num_skipped (task_count : Int) (tasks : List Task) :
    (test_results task_count tasks).num_skipped = 0 := by
  simp only [test_results]

theorem test_results_outcome (task_count : Int) (tasks : List Task) :
    (test_results task_count tasks).outcome
      = if task_count = wrap_i32 (running_count tasks) then Outcome.Pass else Outcome.Fail := by
  simp only [test_results]

theorem taskPassed_iff (task : Task) :
    taskPassed task = true ↔
      (task.last_status = some "STOPPED"
        ∧ task.stop_code = some TaskStopCode.EssentialContainerExited
        ∧ ∀ container ∈ task.containers, container.exit_code = some 0) := by
  unfold taskPassed
  simp [List.length_eq_zero, List.filter_eq_nil_iff]

/-- C1 counterexample: with `task_count = 0` and a single passing snapshot the
`i32` difference `0 - 1` is cast to `u64`, so `num_passed + num_failed = 2^64`,
not the replica count `0`. -/
theorem c1_counterexample :
    ¬ ((test_results 0 [passingTask]).num_passed + (test_results 0 [passingTask]).num_failed = 0
        ∧ (test_results 0 [passingTask]).num_skipped = 0) := by
  decide

/-- C1 (amended): for every replica count `task_count ≥ 0` in `i32` range and every
snapshot collection in which at most `task_count` snapshots pass the filter chain,
the Verdict produced by `test_results` satisfies `num_passed + num_failed = task_count`
and `num_skipped = 0`. -/
theorem c1_invariant (task_count : Int) (tasks : List Task)
    (h0 : 0 ≤ task_count) (h1 : task_count < 2147483648)
    (h2 : (running_count tasks : Int) ≤ task_count) :
    (test_results task_count tasks).num_passed + (test_results task_count tasks).num_failed
        = task_count.toNat
      ∧ (test_results task_count tasks).num_skipped = 0 := by
  have h3 : (0:Int) ≤ (running_count tasks : Int) := by omega
  have hw : wrap_i32 (running_count tasks) = (running_count tasks : Int) :=
    wrap_i32_id _ (by omega) (by omega)
  constructor
  · rw [test_results_num_passed, test_results_num_failed, hw,
      wrap_i32_id _ (by omega) (by omega),
      i32_as_u64_of_nonneg _ h3 (by omega), i32_as_u64_of_nonneg _ (by omega) (by omega)]
    omega
  · exact test_results_num_skipped _ _

theorem c1_witness :
    (test_results 2 [passingTask, passingTask]).num_passed
        + (test_results 2 [passingTask, passingTask]).num_failed = 2
      ∧ (test_results 2 [passingTask, passingTask]).num_skipped = 0 :=
  c1_invariant 2 [passingTask, passingTask] (by decide) (by decide) (by decide)

/-- C2: a snapshot is counted by the reducer's filter chain iff its last status is
"STOPPED", its stop code is `EssentialContainerExited`, and every container exit
code is zero; when all three hold a single such snapshot with `task_count = 1`
yields `num_passed = 1`, and when any of the three fails it yields `num_failed = 1`. -/
theorem c2_pass_characterization (task : Task) :
    (running_count [task] = 1 ↔
        (task.last_status = some "STOPPED"
          ∧ task.stop_code = some TaskStopCode.EssentialContainerExited
          ∧ ∀ container ∈ task.containers, container.exit_code = some 0))
      ∧ ((task.last_status = some "STOPPED"
          ∧ task.stop_code = some TaskStopCode.EssentialContainerExited
          ∧ ∀ container ∈ task.containers, container.exit_code = some 0) →
        (test_results 1 [task]).num_passed = 1 ∧ (test_results 1 [task]).num_failed = 0
          ∧ (test_results 1 [task]).outcome = Outcome.Pass)
      ∧ (¬ (task.last_status = some "STOPPED"
          ∧ task.stop_code = some TaskStopCode.EssentialContainerExited
          ∧ ∀ container ∈ task.containers, container.exit_code = some 0) →
        (test_results 1 [task]).num_passed = 0 ∧ (test_results 1 [task]).num_failed = 1
          ∧ (test_results 1 [task]).outcome = Outcome.Fail) := by
  have hiff := taskPassed_iff task
  refine ⟨?_, ?_, ?_⟩
  · rw [running_count_singleton]
    by_cases h : taskPassed task
    · rw [if_pos h]
      exact iff_of_true rfl (hiff.mp h)
    · rw [if_neg h]
      exact iff_of_false (by omega) (fun hc => h (hiff.mpr hc))
  · intro hc
    have hrc : running_count [task] = 1 := by
      rw [running_count_singleton, if_pos (hiff.mpr hc)]
    refine ⟨?_, ?_, ?_⟩
    · rw [test_results_num_passed, hrc]; decide
    · rw [test_results_num_failed, hrc]; decide
    · rw [test_results_outcome, hrc]; decide
  · intro hc
    have htp : taskPassed task = false := by
      cases h' : taskPassed task
      · rfl
      · exact absurd (hiff.mp h') hc
    have hrc : running_count [task] = 0 := by
      rw [running_count_singleton, htp]
      rfl
    refine ⟨?_, ?_, ?_⟩
    · rw [test_results_num_passed, hrc]; decide
    · rw [test_results_num_failed, hrc]; decide
    · rw [test_results_outcome, hrc]; decide

theorem c2_witness :
    (test_results 1 [passingTask]).num_passed = 1 ∧ (test_results 1 [passingTask]).num_failed = 0
      ∧ (test_results 1 [passingTask]).outcome = Outcome.Pass :=
  (c2_pass_characterization passingTask).2.1 (by decide)

/-- C3: the reducer's outcome is Pass iff `num_passed` equals the replica count, and
when the snapshot collection has fewer entries than `task_count` (missing handles),
the outcome is Fail, `num_passed` is at most the collection size, and each missing
handle contributes to `num_failed` (so `num_failed ≥ task_count - |tasks|`). -/
theorem c3_pass_iff_and_missing (task_count : Int) (tasks : List Task)
    (h0 : 0 ≤ task_count) (h1 : task_count < 2147483648)
    (hlen : (tasks.length : Int) < 2147483648) :
    ((test_results task_count tasks).outcome = Outcome.Pass ↔
        ((test_results task_count tasks).num_passed : Int) = task_count)
      ∧ ((tasks.length : Int) < task_count →
        (test_results task_count tasks).outcome = Outcome.Fail
          ∧ ((test_results task_count tasks).num_passed : Int) ≤ (tasks.length : Int)
          ∧ task_count - (tasks.length : Int) ≤ ((test_results task_count tasks).num_failed : Int)) := by
  have hrc : (running_count tasks : Int) ≤ (tasks.length : Int) := by
    exact_mod_cast running_count_le_length tasks
  have hw : wrap_i32 (running_count tasks) = (running_count tasks : Int) :=
    wrap_i32_id _ (by omega) (by omega)
  have hnp : ((test_results task_count tasks).num_passed : Int) = (running_count tasks : Int) := by
    rw [test_results_num_passed, hw, i32_as_u64_of_nonneg _ (by omega) (by omega)]
    omega
  constructor
  · rw [hnp, test_results_outcome, hw]
    by_cases he : task_count = (running_count tasks : Int)
    · rw [if_pos he]
      exact iff_of_true rfl he.symm
    · rw [if_neg he]
      exact iff_of_false (by simp) (fun h => he h.symm)
  · intro hlt
    have hne : task_count ≠ (running_count tasks : Int) := by omega
    refine ⟨?_, ?_, ?_⟩
    · rw [test_results_outcome, hw, if_neg hne]
    · rw [hnp]; exact hrc
    · rw [test_results_num_failed, hw, wrap_i32_id _ (by omega) (by omega),
        i32_as_u64_of_nonneg _ (by omega) (by omega)]
      omega

theorem c3_witness :
    (test_results 2 [passingTask]).outcome = Outcome.Fail
      ∧ ((test_results 2 [passingTask]).outcome = Outcome.Pass ↔
          ((test_results 2 [passingTask]).num_passed : Int) = 2) := by
  have h := c3_pass_iff_and_missing 2 [passingTask] (by decide) (by decide) (by decide)
  exact ⟨(h.2 (by decide)).1, h.1⟩

/-- C10: `num_failed` is the `i32` difference `task_count - running_count` cast to
`u64`. When `running_count ≤ task_count` the counts are well-defined and sum to the
replica count; when `running_count > task_count` the negative difference wraps to a
value near `2^64` and the `passed + failed = replica_count` invariant is violated. -/
theorem c10_num_failed_wrap (task_count : Int) (tasks : List Task)
    (h0 : 0 ≤ task_count) (h1 : task_count < 2147483648)
    (hlen : (tasks.length : Int) < 2147483648) :
    ((running_count tasks : Int) ≤ task_count →
        ((test_results task_count tasks).num_failed : Int)
            = task_count - (running_count tasks : Int)
          ∧ (test_results task_count tasks).num_passed
              + (test_results task_count tasks).num_failed = task_count.toNat)
      ∧ (task_count < (running_count tasks : Int) →
        ((test_results task_count tasks).num_failed : Int)
            = 18446744073709551616 + task_count - (running_count tasks : Int)
          ∧ (test_results task_count tasks).num_passed
              + (test_results task_count tasks).num_failed ≠ task_count.toNat) := by
  have hrc : (running_count tasks : Int) ≤ (tasks.length : Int) := by
    exact_mod_cast running_count_le_length tasks
  have hw : wrap_i32 (running_count tasks) = (running_count tasks : Int) :=
    wrap_i32_id _ (by omega) (by omega)
  have hnp : (test_results task_count tasks).num_passed = running_count tasks := by
    rw [test_results_num_passed, hw, i32_as_u64_of_nonneg _ (by omega) (by omega)]
    omega
  have hwd : wrap_i32 (task_count - (running_count tasks : Int))
      = task_count - (running_count tasks : Int) :=
    wrap_i32_id _ (by omega) (by omega)
  constructor
  · intro hle
    have hnf : ((test_results task_count tasks).num_failed : Int)
        = task_count - (running_count tasks : Int) := by
      rw [test_results_num_failed, hw, hwd, i32_as_u64_of_nonneg _ (by omega) (by omega)]
      omega
    exact ⟨hnf, by omega⟩
  · intro hgt
    have hnf : ((test_results task_count tasks).num_failed : Int)
        = 18446744073709551616 + task_count - (running_count tasks : Int) := by
      rw [test_results_num_failed, hw, hwd, i32_as_u64_of_neg _ (by omega) (by omega)]
      omega
    exact ⟨hnf, by omega⟩

theorem c10_witness :
    ((test_results 0 [passingTask]).num_failed : Int)
        = 18446744073709551616 + 0 - (running_count [passingTask] : Int)
      ∧ (test_results 0 [passingTask]).num_passed + (test_results 0 [passingTask]).num_failed
          ≠ (0:Int).toNat :=
  (c10_num_failed_wrap 0 [passingTask] (by decide) (by decide) (by decide)).2 (by decide)

theorem wait_trace_clusters (dc : Nat → Except Unit (List Cluster)) :
    ∀ fuel i a, a ∈ (wait_for_registered_containers dc i fuel).2 →
      a = ApiCall.DescribeClusters := by
  intro fuel
  induction fuel with
  | zero =>
    intro i a ha
    simp [wait_for_registered_containers] at ha
  | succ fuel ih =>
    intro i a ha
    unfold wait_for_registered_containers at ha
    split at ha
    · simp at ha
      exact ha
    · split at ha
      · simp at ha
        exact ha
      · split at ha
        · simp at ha
          exact ha
        · simp at ha
          rcases ha with h | h
          · exact h
          · exact ih (i+1) a h

theorem wait_trace_tasks (dt : Nat → Except Unit (List Task)) (task_count : Int) :
    ∀ fuel i a, a ∈ (wait_for_test_running dt task_count i fuel).2 →
      a = ApiCall.DescribeTasks := by
  intro fuel
  induction fuel with
  | zero =>
    intro i a ha
    simp [wait_for_test_running] at ha
  | succ fuel ih =>
    intro i a ha
    unfold wait_for_test_running at ha
    cases hdt : dt i with
    | error e =>
      simp only [hdt] at ha
      simp at ha
      exact ha
    | ok tasks =>
      simp only [hdt] at ha
      by_cases hp : (test_results task_count tasks).outcome = Outcome.Pass
      · simp only [if_pos hp] at ha
        simp at ha
        exact ha
      · simp only [if_neg hp] at ha
        simp at ha
        rcases ha with h | h
        · exact h
        · exact ih (i+1) a h

theorem readiness_stage_trace (dc : Nat → Except Unit (List Cluster)) (fuel : Nat) :
    ∀ a ∈ (readiness_stage dc fuel).2, a = ApiCall.DescribeClusters := by
  intro a ha
  exact wait_trace_clusters dc fuel 0 a ha

theorem completion_stage_trace (dt : Nat → Except Unit (List Task)) (task_count : Int)
    (deadline_polls : Nat) :
    ∀ a ∈ (completion_stage dt task_count deadline_polls).2, a = ApiCall.DescribeTasks := by
  intro a ha
  unfold completion_stage at ha
  cases hw : (wait_for_test_running dt task_count 0 deadline_polls).1 with
  | some results =>
    simp only [hw] at ha
    exact wait_trace_tasks dt task_count deadline_polls 0 a ha
  | none =>
    simp only [hw, test_results_call, List.mem_append] at ha
    rcases ha with h | h
    · exact wait_trace_tasks dt task_count deadline_polls 0 a h
    · simp at h
      exact h

/-- C4: if the 30 second deadline elapses before the polling loop reaches Pass
(the loop result is `none`), exactly one further snapshot-fetch-and-reduce pass
happens — the trace grows by a single `DescribeTasks` — and its Verdict is
returned unchanged; in particular a Pass final snapshot yields a Pass result,
never a failure caused by the timeout alone. -/
theorem c4_timeout_final_snapshot (dt : Nat → Except Unit (List Task)) (task_count : Int)
    (deadline_polls : Nat)
    (h : (wait_for_test_running dt task_count 0 deadline_polls).1 = none) :
    (completion_stage dt task_count deadline_polls).1
        = (test_results_call (dt deadline_polls) task_count).1
      ∧ (completion_stage dt task_count deadline_polls).2
        = (wait_for_test_running dt task_count 0 deadline_polls).2 ++ [ApiCall.DescribeTasks]
      ∧ (∀ tasks, dt deadline_polls = .ok tasks →
          (test_results task_count tasks).outcome = Outcome.Pass →
          (completion_stage dt task_count deadline_polls).1
            = .ok (test_results task_count tasks)
            ∧ (completion_stage dt task_count deadline_polls).1
              ≠ .error Error.TaskDescribe) := by
  refine ⟨?_, ?_, ?_⟩
  · unfold completion_stage
    simp only [h]
  · unfold completion_stage
    simp only [h, test_results_call]
  · intro tasks hdt hp
    have h1 : (completion_stage dt task_count deadline_polls).1
        = .ok (test_results task_count tasks) := by
      unfold completion_stage
      simp only [h, test_results_call, hdt]
    exact ⟨h1, by rw [h1]; simp⟩

theorem c4_witness :
    (completion_stage dtWitness 1 1).1 = .ok (test_results 1 [passingTask])
      ∧ (completion_stage dtWitness 1 1).2
        = (wait_for_test_running dtWitness 1 0 1).2 ++ [ApiCall.DescribeTasks] := by
  have h := c4_timeout_final_snapshot dtWitness 1 1 (by rfl)
  exact ⟨(h.2.2 [passingTask] (by rfl) (by decide)).1, h.2.1⟩

/-- C5: the polling loop `wait_for_test_running` hands back a Verdict only when its
outcome is Pass; a reduce pass with any other outcome never terminates the loop and
only causes another iteration, while a Pass reduce returns that Verdict at once with
no further polling (a single `DescribeTasks` in the trace for that round). -/
theorem c5_poll_only_returns_pass (dt : Nat → Except Unit (List Task)) (task_count : Int) :
    (∀ fuel i results,
        (wait_for_test_running dt task_count i fuel).1 = some (.ok results) →
        results.outcome = Outcome.Pass)
      ∧ (∀ fuel i tasks, dt i = .ok tasks →
          (test_results task_count tasks).outcome ≠ Outcome.Pass →
          wait_for_test_running dt task_count i (fuel+1)
            = ((wait_for_test_running dt task_count (i+1) fuel).1,
                ApiCall.DescribeTasks :: (wait_for_test_running dt task_count (i+1) fuel).2))
      ∧ (∀ fuel i tasks, dt i = .ok tasks →
          (test_results task_count tasks).outcome = Outcome.Pass →
          wait_for_test_running dt task_count i (fuel+1)
            = (some (.ok (test_results task_count tasks)), [ApiCall.DescribeTasks])) := by
  refine ⟨?_, ?_, ?_⟩
  · intro fuel
    induction fuel with
    | zero =>
      intro i results h
      simp [wait_for_test_running] at h
    | succ fuel ih =>
      intro i results h
      unfold wait_for_test_running at h
      cases hdt : dt i with
      | error e =>
        simp only [hdt] at h
        simp at h
      | ok tasks =>
        simp only [hdt] at h
        by_cases hp : (test_results task_count tasks).outcome = Outcome.Pass
        · simp only [if_pos hp] at h
          simp at h
          exact h ▸ hp
        · simp only [if_neg hp] at h
          exact ih (i+1) results h
  · intro fuel i tasks hdt hp
    conv_lhs => unfold wait_for_test_running
    simp only [hdt, if_neg hp]
  · intro fuel i tasks hdt hp
    conv_lhs => unfold wait_for_test_running
    simp only [hdt, if_pos hp]

theorem c5_witness :
    wait_for_test_running dtWitness 1 1 1
        = (some (.ok (test_results 1 [passingTask])), [ApiCall.DescribeTasks])
      ∧ wait_for_test_running dtWitness 1 0 2
        = ((wait_for_test_running dtWitness 1 1 1).1,
            ApiCall.DescribeTasks :: (wait_for_test_running dtWitness 1 1 1).2) := by
  have h := c5_poll_only_returns_pass dtWitness 1
  exact ⟨h.2.2 0 1 [passingTask] (by rfl) (by decide),
    h.2.1 1 0 [runningTask] (by rfl) (by decide)⟩

theorem existsTaskDefinition_error_true (e : EcsSdkError DescribeTaskDefinitionError)
    (hne : ∀ message, e ≠ .ServiceError (.ClientException message)) :
    existsTaskDefinition (.error e) = true := by
  cases e with
  | ServiceError err =>
    cases err with
    | ClientException message => exact absurd rfl (hne message)
    | InvalidParameterException message => rfl
    | ServerException message => rfl
  | ConstructionFailure => rfl
  | DispatchFailure => rfl
  | ResponseError => rfl
  | TimeoutError => rfl

/-- C7: a describe of the well-known family failing with the client-side
`ClientException` leads to creating the task definition (`register_task_definition`
is called); a describe failing with any other error takes the `latest_task_revision`
path, whose describe against the same oracle propagates that error as
`Error::TaskDefinitionDescribe`, and the create operation is never invoked. -/
theorem c7_describe_error_handling
    (describe_response :
      Except (EcsSdkError DescribeTaskDefinitionError) DescribeTaskDefinitionOutput)
    (register_response : Except Unit RegisterTaskDefinitionOutput) :
    (∀ message, describe_response = .error (.ServiceError (.ClientException message)) →
        create_or_find_task_definition describe_response register_response
          = ((create_task_definition register_response).1,
              [ApiCall.DescribeTaskDef, ApiCall.RegisterTaskDef]))
      ∧ (∀ e, describe_response = .error e →
          (∀ message, e ≠ .ServiceError (.ClientException message)) →
          (create_or_find_task_definition describe_response register_response).1
              = .error (.TaskDefinitionDescribe e)
            ∧ ApiCall.RegisterTaskDef ∉
                (create_or_find_task_definition describe_response register_response).2) := by
  constructor
  · intro message hd
    subst hd
    unfold create_or_find_task_definition
    simp only [existsTaskDefinition, create_task_definition]
    rfl
  · intro e hd hne
    subst hd
    unfold create_or_find_task_definition
    rw [existsTaskDefinition_error_true e hne]
    simp only [latest_task_revision, if_true]
    constructor
    · trivial
    · simp

theorem c7_witness :
    create_or_find_task_definition
        (.error (.ServiceError (.ClientException "not found")))
        (.ok { task_definition := some { revision := 1 } })
      = ((create_task_definition (.ok { task_definition := some { revision := 1 } })).1,
          [ApiCall.DescribeTaskDef, ApiCall.RegisterTaskDef])
      ∧ (create_or_find_task_definition (.error .TimeoutError)
            (.ok { task_definition := some { revision := 1 } })).1
        = .error (.TaskDefinitionDescribe .TimeoutError) := by
  refine ⟨?_, ?_⟩
  · exact (c7_describe_error_handling
      (.error (.ServiceError (.ClientException "not found")))
      (.ok { task_definition := some { revision := 1 } })).1 "not found" rfl
  · exact ((c7_describe_error_handling (.error .TimeoutError)
      (.ok { task_definition := some { revision := 1 } })).2 .TimeoutError rfl
      (by intro message h; cases h)).1

/-- C8: with an explicitly configured task definition name and revision, the
resolution step returns the configured value verbatim with no API calls, the whole
run performs no `describe_task_definition` and no `register_task_definition` call,
and any task submission in the run uses the configured reference. -/
theorem c8_configured_task_definition (config : EcsTestConfig) (env : EcsEnv)
    (task_definition : String) (readiness_polls completion_polls : Nat)
    (h : config.task_definition_name_and_revision = some task_definition) :
    resolve_task_definition (some task_definition) env.describe_task_definition
        env.register_task_definition = (.ok task_definition, [])
      ∧ ApiCall.DescribeTaskDef ∉ (runModel config env readiness_polls completion_polls).2
      ∧ ApiCall.RegisterTaskDef ∉ (runModel config env readiness_polls completion_polls).2
      ∧ (∀ name count,
          ApiCall.RunTask name count ∈ (runModel config env readiness_polls completion_polls).2 →
          name = task_definition) := by
  have htrace : ∀ a ∈ (runModel config env readiness_polls completion_polls).2,
      a = ApiCall.DescribeClusters ∨ a = ApiCall.RunTask task_definition config.task_count
        ∨ a = ApiCall.DescribeTasks := by
    intro a ha
    unfold runModel at ha
    rw [h] at ha
    simp only [resolve_task_definition] at ha
    cases hready : (readiness_stage env.describe_clusters readiness_polls).1 with
    | error e =>
      simp only [hready] at ha
      exact Or.inl (readiness_stage_trace env.describe_clusters readiness_polls a ha)
    | ok u =>
      simp only [hready] at ha
      cases hrt : env.run_task with
      | error e =>
        simp only [hrt, List.mem_append] at ha
        rcases ha with (hc | hc) | hc
        · exact Or.inl (readiness_stage_trace env.describe_clusters readiness_polls a hc)
        · simp at hc
        · simp at hc
          exact Or.inr (Or.inl hc)
      | ok tasks =>
        simp only [hrt, List.mem_append] at ha
        rcases ha with ((hc | hc) | hc) | hc
        · exact Or.inl (readiness_stage_trace env.describe_clusters readiness_polls a hc)
        · simp at hc
        · simp at hc
          exact Or.inr (Or.inl hc)
        · exact Or.inr (Or.inr
            (completion_stage_trace env.describe_tasks config.task_count completion_polls a hc))
  refine ⟨rfl, ?_, ?_, ?_⟩
  · intro hmem
    rcases htrace _ hmem with hc | hc | hc <;> simp at hc
  · intro hmem
    rcases htrace _ hmem with hc | hc | hc <;> simp at hc
  · intro name count hmem
    rcases htrace _ hmem with hc | hc | hc
    · simp at hc
    · simp at hc
      exact hc.1
    · simp at hc

theorem c8_witness :
    resolve_task_definition (some "my-task:3") envWitness.describe_task_definition
        envWitness.register_task_definition = (.ok "my-task:3", [])
      ∧ ApiCall.DescribeTaskDef ∉ (runModel configWitness envWitness 2 2).2
      ∧ ApiCall.RegisterTaskDef ∉ (runModel configWitness envWitness 2 2).2 := by
  have h := c8_configured_task_definition configWitness envWitness "my-task:3" 2 2 rfl
  exact ⟨h.1, h.2.1, h.2.2.1⟩

theorem wait_skip (dc : Nat → Except Unit (List Cluster)) :
    ∀ i k fuel, (∀ j, j < i → stillWaiting dc (k + j)) → i ≤ fuel →
      wait_for_registered_containers dc k fuel
        = ((wait_for_registered_containers dc (k + i) (fuel - i)).1,
            List.replicate i ApiCall.DescribeClusters
              ++ (wait_for_registered_containers dc (k + i) (fuel - i)).2) := by
  intro i
  induction i with
  | zero =>
    intro k fuel _ _
    simp
  | succ i ih =>
    intro k fuel hsw hf
    obtain ⟨fuel', rfl⟩ : ∃ f, fuel = f + 1 := ⟨fuel - 1, by omega⟩
    obtain ⟨cluster, clusters, hdc, hc⟩ := hsw 0 (by omega)
    rw [Nat.add_zero] at hdc
    have hcc : ¬ (cluster.registered_container_instances_count ≠ 0) := by omega
    have hstep : wait_for_registered_containers dc k (fuel' + 1)
        = ((wait_for_registered_containers dc (k+1) fuel').1,
            ApiCall.DescribeClusters :: (wait_for_registered_containers dc (k+1) fuel').2) := by
      conv_lhs => unfold wait_for_registered_containers
      simp only [hdc, List.head?_cons, if_neg hcc]
    rw [hstep]
    have hsw' : ∀ j, j < i → stillWaiting dc (k + 1 + j) := by
      intro j hj
      have hj' := hsw (j+1) (by omega)
      rwa [show k + (j+1) = k + 1 + j by omega] at hj'
    rw [ih (k+1) fuel' hsw' (by omega)]
    rw [show k + 1 + i = k + (i + 1) by omega,
      show fuel' - i = fuel' + 1 - (i + 1) by omega, List.replicate_succ]
    simp

theorem readiness_success_at (dc : Nat → Except Unit (List Cluster)) (i fuel : Nat)
    (hsw : ∀ j, j < i → stillWaiting dc j) (hf : i < fuel)
    (cluster : Cluster) (clusters : List Cluster) (hdc : dc i = .ok (cluster :: clusters))
    (hc : cluster.registered_container_instances_count ≠ 0) :
    readiness_stage dc fuel = (.ok (), List.replicate (i+1) ApiCall.DescribeClusters) := by
  have hsw0 : ∀ j, j < i → stillWaiting dc (0 + j) := by
    intro j hj
    rw [Nat.zero_add]
    exact hsw j hj
  have hskip := wait_skip dc i 0 fuel hsw0 (by omega)
  rw [Nat.zero_add] at hskip
  obtain ⟨m, hm⟩ : ∃ m, fuel - i = m + 1 := ⟨fuel - i - 1, by omega⟩
  have hstep : wait_for_registered_containers dc i (fuel - i)
      = (some (.ok ()), [ApiCall.DescribeClusters]) := by
    rw [hm]
    conv_lhs => unfold wait_for_registered_containers
    simp only [hdc, List.head?_cons, if_pos hc]
  have hwait : wait_for_registered_containers dc 0 fuel
      = (some (.ok ()), List.replicate (i+1) ApiCall.DescribeClusters) := by
    rw [hskip, hstep]
    simp [List.replicate_succ']
  unfold readiness_stage
  rw [hwait]

theorem readiness_fatal_at (dc : Nat → Except Unit (List Cluster)) (i fuel : Nat)
    (hsw : ∀ j, j < i → stillWaiting dc j) (hf : i < fuel) (hdc : dc i = .ok []) :
    readiness_stage dc fuel
      = (.error .NoTask, List.replicate (i+1) ApiCall.DescribeClusters) := by
  have hsw0 : ∀ j, j < i → stillWaiting dc (0 + j) := by
    intro j hj
    rw [Nat.zero_add]
    exact hsw j hj
  have hskip := wait_skip dc i 0 fuel hsw0 (by omega)
  rw [Nat.zero_add] at hskip
  obtain ⟨m, hm⟩ : ∃ m, fuel - i = m + 1 := ⟨fuel - i - 1, by omega⟩
  have hstep : wait_for_registered_containers dc i (fuel - i)
      = (some (.error .NoTask), [ApiCall.DescribeClusters]) := by
    rw [hm]
    conv_lhs => unfold wait_for_registered_containers
    simp only [hdc, List.head?_nil]
  have hwait : wait_for_registered_containers dc 0 fuel
      = (some (.error .NoTask), List.replicate (i+1) ApiCall.DescribeClusters) := by
    rw [hskip, hstep]
    simp [List.replicate_succ']
  unfold readiness_stage
  rw [hwait]

theorem readiness_timeout (dc : Nat → Except Unit (List Cluster)) (fuel : Nat)
    (hsw : ∀ j, j < fuel → stillWaiting dc j) :
    readiness_stage dc fuel
      = (.error .InstanceTimeout, List.replicate fuel ApiCall.DescribeClusters) := by
  have hsw0 : ∀ j, j < fuel → stillWaiting dc (0 + j) := by
    intro j hj
    rw [Nat.zero_add]
    exact hsw j hj
  have hskip := wait_skip dc fuel 0 fuel hsw0 (le_refl fuel)
  rw [Nat.zero_add, Nat.sub_self] at hskip
  have hwait : wait_for_registered_containers dc 0 fuel
      = (none, List.replicate fuel ApiCall.DescribeClusters) := by
    rw [hskip]
    simp [wait_for_registered_containers]
  unfold readiness_stage
  rw [hwait]

/-- C9: the Readiness Waiter polls `describe_clusters` (2 second interval, 30 second
deadline) and succeeds on the first round reporting a nonzero registered
container-instance count; a describe returning no cluster makes the fatal
`Error::NoTask` propagate after exactly that round's call with no further poll
iteration; exhausting the deadline while capacity stays zero yields the distinct
`Error::InstanceTimeout`; and any readiness-stage error aborts the run with no
`run_task` submission in its trace. -/
theorem c9_readiness_waiter (dc : Nat → Except Unit (List Cluster)) :
    (∀ i fuel cluster clusters, (∀ j, j < i → stillWaiting dc j) → i < fuel →
        dc i = .ok (cluster :: clusters) →
        cluster.registered_container_instances_count ≠ 0 →
        readiness_stage dc fuel = (.ok (), List.replicate (i+1) ApiCall.DescribeClusters))
      ∧ (∀ i fuel, (∀ j, j < i → stillWaiting dc j) → i < fuel → dc i = .ok [] →
          readiness_stage dc fuel
            = (.error .NoTask, List.replicate (i+1) ApiCall.DescribeClusters))
      ∧ (∀ fuel, (∀ j, j < fuel → stillWaiting dc j) →
          readiness_stage dc fuel
            = (.error .InstanceTimeout, List.replicate fuel ApiCall.DescribeClusters))
      ∧ Error.NoTask ≠ Error.InstanceTimeout
      ∧ POLL_INTERVAL_SECS = 2 ∧ TIMEOUT_SECS = 30
      ∧ (∀ config env readiness_polls completion_polls e,
          env.describe_clusters = dc →
          (readiness_stage dc readiness_polls).1 = .error e →
          (runModel config env readiness_polls completion_polls).1 = .error e
            ∧ ∀ name count,
                ApiCall.RunTask name count
                  ∉ (runModel config env readiness_polls completion_polls).2) := by
  refine ⟨fun i fuel cluster clusters hsw hf hdc hc =>
      readiness_success_at dc i fuel hsw hf cluster clusters hdc hc,
    fun i fuel hsw hf hdc => readiness_fatal_at dc i fuel hsw hf hdc,
    fun fuel hsw => readiness_timeout dc fuel hsw,
    by decide, rfl, rfl, ?_⟩
  intro config env readiness_polls completion_polls e hdce hre
  have hready : (readiness_stage env.describe_clusters readiness_polls).1 = .error e := by
    rw [hdce]
    exact hre
  constructor
  · unfold runModel
    simp only [hready]
  · intro name count hmem
    unfold runModel at hmem
    simp only [hready] at hmem
    have hall := readiness_stage_trace env.describe_clusters readiness_polls _ hmem
    simp at hall

theorem c9_witness :
    readiness_stage dcWitness 2 = (.ok (), List.replicate 2 ApiCall.DescribeClusters)
      ∧ readiness_stage dcEmpty 3
        = (.error .NoTask, List.replicate 1 ApiCall.DescribeClusters)
      ∧ (runModel configWitness envNoCluster 3 1).1 = .error Error.NoTask := by
  have h := c9_readiness_waiter dcWitness
  have h2 := c9_readiness_waiter dcEmpty
  refine ⟨?_, ?_, ?_⟩
  · refine h.1 1 2 clusterOne [] ?_ (by omega) rfl (by decide)
    intro j hj
    have hj0 : j = 0 := by omega
    subst hj0
    exact ⟨clusterZero, [], rfl, rfl⟩
  · exact h2.2.1 0 3 (fun j hj => by omega) (by omega) rfl
  · refine ((h2.2.2.2.2.2.2 configWitness envNoCluster 3 1 Error.NoTask rfl ?_)).1
    rw [h2.2.1 0 3 (fun j hj => by omega) (by omega) rfl]

end EcsTestAgent
